import Mathlib

/-!
Verification of the SECAT command layer (`secat/main.py`, `secat/plot.py`)
against its natural-language specification.

The command layer is embedded shallowly:

* a SQLite database file is a `Store`, a map from table names to optional
  table contents; `pandas.DataFrame.to_sql(..., if_exists='replace')` is
  `Store.write`, and `to_sql(..., if_exists='append')` is `Store.append`;
* the stage computations (`monomer`, `scoring`, `significance`,
  `quantitative_matrix`, `quantitative_test`) live in modules outside the
  sources at hand, so they are parameters of the embedding: arbitrary
  functions from a store to `Except String result`, an exception being the
  `.error` case;
* each command is a function threading the store through the exact sequence
  of compute/write steps of the Python source, recording an event trace
  (`Ev.compute` when a stage computation starts, `Ev.write` when a table is
  written) and stopping at the first exception;
* the filesystem is `FS`, a map from paths to stores; `shutil.copyfile` is
  `FS.copy`.
-/

namespace Secat

/-- Table contents: a list of rows, each row a list of cell values. -/
abbrev Table := List (List String)

/-- A SQLite database file: a map from table names to optional contents. -/
def Store := String → Option Table

/-- The empty database (a freshly created SQLite file has no tables). -/
def Store.empty : Store := fun _ => none

/-- Write of `df.to_sql(name, con, if_exists='replace')` (also the plain
`to_sql` onto a fresh file): the named table is created or replaced whole. -/
def Store.write (s : Store) (name : String) (t : Table) : Store :=
  fun m => if m = name then some t else s m

/-- Write of `df.to_sql(name, con, if_exists='append')`: rows are appended
to the named table, which is created when absent. -/
def Store.append (s : Store) (name : String) (t : Table) : Store :=
  fun m => if m = name then some ((s name).getD [] ++ t) else s m

/-- Read of `pd.read_sql('SELECT ... FROM name', con)`: fails with an
`OperationalError` mentioning the missing table when it does not exist. -/
def Store.read (s : Store) (name : String) : Except String Table :=
  match s name with
  | some t => .ok t
  | none => .error ("no such table: " ++ name)

/-- Events observable while a command runs: a stage computation starting,
and a table being written to the store. -/
inductive Ev where
  | compute (stage : String)
  | write (table : String)
deriving DecidableEq, Repr

/-- Outcome of running a command body: the final store, `some e` when an
exception escaped (`none` on success), and the event trace. -/
structure Outcome where
  store : Store
  err : Option String
  trace : List Ev

/-- Configuration options of the `score` command (`main.py`, the
`click.option` declarations of `score`); `score` forwards them to the stage
computations and never inspects them itself. -/
structure ScoreConfig where
  complex_threshold_factor : ℚ
  minimum_peptides : ℕ
  maximum_peptides : ℕ
  minimum_overlap : ℕ
  minimum_mass_ratio : ℚ
  maximum_sec_lag : ℚ
  chunck_size : ℕ

/-- Stage body of the `score` command (`main.py`, `score`, the part after
the outfile is fixed): run `monomer`, write `MONOMER`; run `scoring`, write
`FEATURE`; run `significance`, write `FEATURE_SCORED`; an exception in a
stage computation aborts the command there, after the preceding writes. -/
def runScore (monomerC scoringC significanceC : Store → Except String Table)
    (s : Store) : Outcome :=
  match monomerC s with
  | .error e => ⟨s, some e, [.compute "monomer"]⟩
  | .ok monomer_data =>
    let s1 := s.write "MONOMER" monomer_data
    match scoringC s1 with
    | .error e => ⟨s1, some e, [.compute "monomer", .write "MONOMER", .compute "scoring"]⟩
    | .ok feature_data =>
      let s2 := s1.write "FEATURE" feature_data
      match significanceC s2 with
      | .error e => ⟨s2, some e,
          [.compute "monomer", .write "MONOMER", .compute "scoring", .write "FEATURE",
           .compute "significance"]⟩
      | .ok scored_data =>
        ⟨s2.write "FEATURE_SCORED" scored_data, none,
          [.compute "monomer", .write "MONOMER", .compute "scoring", .write "FEATURE",
           .compute "significance", .write "FEATURE_SCORED"]⟩

/-- Result of the `quantitative_test` stage: the five result tables it
exposes as attributes (`main.py`, `quantify`). -/
structure QTResult where
  edge_directional : Table
  edge : Table
  edge_level : Table
  node : Table
  node_level : Table

/-- Stage body of the `quantify` command (`main.py`, `quantify`, after the
outfile is fixed): run `quantitative_matrix`, write `COMPLEX_QM`; run
`quantitative_test`, write `EDGE_DIRECTIONAL`, `EDGE`, `EDGE_LEVEL`,
`NODE`, `NODE_LEVEL` in that order. -/
def runQuantify (qmC : Store → Except String Table)
    (qtC : Store → Except String QTResult) (s : Store) : Outcome :=
  match qmC s with
  | .error e => ⟨s, some e, [.compute "quantitative_matrix"]⟩
  | .ok qm =>
    let s1 := s.write "COMPLEX_QM" qm
    match qtC s1 with
    | .error e => ⟨s1, some e,
        [.compute "quantitative_matrix", .write "COMPLEX_QM", .compute "quantitative_test"]⟩
    | .ok qt =>
      ⟨((((s1.write "EDGE_DIRECTIONAL" qt.edge_directional).write
            "EDGE" qt.edge).write
            "EDGE_LEVEL" qt.edge_level).write
            "NODE" qt.node).write
            "NODE_LEVEL" qt.node_level, none,
        [.compute "quantitative_matrix", .write "COMPLEX_QM", .compute "quantitative_test",
         .write "EDGE_DIRECTIONAL", .write "EDGE", .write "EDGE_LEVEL", .write "NODE",
         .write "NODE_LEVEL"]⟩

/-- The filesystem: a map from paths to database files. -/
def FS := String → Store

/-- Update the file at a path. -/
def FS.put (fs : FS) (path : String) (s : Store) : FS :=
  fun q => if q = path then s else fs q

/-- Embedding of `shutil.copyfile(src, dst)`. -/
def FS.copy (fs : FS) (src dst : String) : FS :=
  fs.put dst (fs src)

/-- The `score` command (`main.py`, `score`): when `--out` is absent the
input file is processed in place, otherwise the input is first copied to
the output path and the copy is processed; the configuration options are
passed to the stage computations unexamined. -/
def scoreCmd (monomerC scoringC significanceC : ScoreConfig → Store → Except String Table)
    (cfg : ScoreConfig) (infile : String) (outfile : Option String) (fs : FS) :
    FS × Option String × List Ev :=
  let out := outfile.getD infile
  let fs1 := match outfile with
    | none => fs
    | some o => fs.copy infile o
  let r := runScore (monomerC cfg) (scoringC cfg) (significanceC cfg) (fs1 out)
  (fs1.put out r.store, r.err, r.trace)

/-- The `quantify` command (`main.py`, `quantify`): same outfile handling as
`score`, then the quantify stage body. -/
def quantifyCmd (qmC : Store → Except String Table)
    (qtC : Store → Except String QTResult)
    (infile : String) (outfile : Option String) (fs : FS) :
    FS × Option String × List Ev :=
  let out := outfile.getD infile
  let fs1 := match outfile with
    | none => fs
    | some o => fs.copy infile o
  let r := runQuantify qmC qtC (fs1 out)
  (fs1.put out r.store, r.err, r.trace)

/-- Quantification loop of the `preprocess` command (`main.py`,
`preprocess`): for each input file, parse it (`quantification`, a module
outside these sources, here the parameter `quantificationOf`) and append
the rows to the `QUANTIFICATION` table.  Returns the store after the loop
together with the final value of the Python loop variable
`quantification_data` (`none` when there was no input file) — the latter is
exactly what `main.py` then passes to `meta`. -/
def quantLoop (quantificationOf : String → Table) (infiles : List String)
    (s : Store) : Store × Option Table :=
  match infiles with
  | [] => (s, none)
  | infile :: rest =>
    let quantification_data := quantificationOf infile
    let r := quantLoop quantificationOf rest (s.append "QUANTIFICATION" quantification_data)
    (r.1, some (r.2.getD quantification_data))

/-- Row of the `QUERY` table (candidate interaction). -/
structure QueryRow where
  bait_id : String
  prey_id : String
  is_decoy : Bool
deriving DecidableEq, Repr

/-- Row of the `QUANTIFICATION` table. -/
structure QuantRow where
  run_id : String
  protein_id : String
  peptide_id : String
  peptide_intensity : ℚ
deriving DecidableEq, Repr

/-- Subquery `SELECT DISTINCT(protein_id) FROM QUANTIFICATION` of the
`DELETE` statements of `preprocess` (`main.py`). -/
def distinctProteinIds (quant : List QuantRow) : List String :=
  (quant.map QuantRow.protein_id).dedup

/-- Embedding of `DELETE FROM QUERY WHERE bait_id NOT IN observed OR
prey_id NOT IN observed` (`main.py`, `preprocess`): the rows that remain in
`QUERY` after the delete. -/
def deleteQueryUnobserved (query : List QueryRow) (observed : List String) :
    List QueryRow :=
  query.filter (fun r => !(decide (r.bait_id ∉ observed) || decide (r.prey_id ∉ observed)))

/-- Delete of rows from one table: `DELETE FROM name WHERE NOT keep(row)`,
keeping the rows satisfying `keep`; table presence is unchanged. -/
def Store.deleteRows (s : Store) (name : String) (keep : List String → Bool) : Store :=
  fun m => if m = name then (s name).map (List.filter keep) else s m

/-- Inputs of the `preprocess` command parsed by the import modules
(`uniprot`, `net`, `sec`, `meta`, `query` live outside these sources, so
their outputs are parameters). -/
structure PreprocessData where
  protein : Table
  network : Table
  sec : Table
  quantificationOf : String → Table
  peptide_meta : Table
  protein_meta : Table
  query : Table

/-- Table-level embedding of the `preprocess` command (`main.py`,
`preprocess`): starting from a fresh file (`os.remove` then connect), write
`PROTEIN`, `NETWORK`, `SEC`, append `QUANTIFICATION` per input file, write
`PEPTIDE_META`, `PROTEIN_META`, `QUERY`, then run the four `DELETE`
statements (whose row predicates, subqueries against `QUANTIFICATION`, are
the `keep*` parameters); indices and `VACUUM` do not touch tables. -/
def runPreprocess (d : PreprocessData) (infiles : List String)
    (keepP keepN keepS keepQ : List String → Bool) : Store :=
  let s := ((Store.empty.write "PROTEIN" d.protein).write "NETWORK" d.network).write
    "SEC" d.sec
  let s := (quantLoop d.quantificationOf infiles s).1
  let s := ((s.write "PEPTIDE_META" d.peptide_meta).write
    "PROTEIN_META" d.protein_meta).write "QUERY" d.query
  (((s.deleteRows "PROTEIN" keepP).deleteRows "NETWORK" keepN).deleteRows
    "SEC" keepS).deleteRows "QUERY" keepQ

/-- Databases producible by the pipeline commands: the output of
`preprocess`, closed under running `score` and `quantify` (with any stage
computations, in any order, any number of times). -/
inductive Produced : Store → Prop where
  | preprocess (d : PreprocessData) (infiles : List String)
      (keepP keepN keepS keepQ : List String → Bool) :
      Produced (runPreprocess d infiles keepP keepN keepS keepQ)
  | score (monomerC scoringC significanceC : Store → Except String Table) (s : Store) :
      Produced s → Produced (runScore monomerC scoringC significanceC s).store
  | quantify (qmC : Store → Except String Table) (qtC : Store → Except String QTResult)
      (s : Store) : Produced s → Produced (runQuantify qmC qtC s).store

/-- Reads performed while constructing `plot_features` (`plot.py`,
`plot_features.__init__`), in source order: `read_features`
(`FEATURE_SCORED`), `read_peptides` (join of `QUANTIFICATION`,
`PROTEIN_META`, `PEPTIDE_META`, `SEC`, `MONOMER`), `read_interactions_dmeta`
(unguarded join of `FEATURE_SCORED_COMBINED` and `PROTEIN`),
`read_interactions_qmeta` (guarded: only if `EDGE` exists),
`read_baits_meta` (guarded: only if `NODE` exists); only afterwards are any
plots produced (`plots` stands for the plot files the run would emit). -/
def plot_features (s : Store) (plots : List String) : Except String (List String) :=
  match s.read "FEATURE_SCORED" with
  | .error e => .error e
  | .ok _ =>
  match s.read "QUANTIFICATION" with
  | .error e => .error e
  | .ok _ =>
  match s.read "PROTEIN_META" with
  | .error e => .error e
  | .ok _ =>
  match s.read "PEPTIDE_META" with
  | .error e => .error e
  | .ok _ =>
  match s.read "SEC" with
  | .error e => .error e
  | .ok _ =>
  match s.read "MONOMER" with
  | .error e => .error e
  | .ok _ =>
  match s.read "FEATURE_SCORED_COMBINED" with
  | .error e => .error e
  | .ok _ =>
  match s.read "PROTEIN" with
  | .error e => .error e
  | .ok _ =>
  match s "EDGE" with
  | some _ =>
    (match s.read "EDGE_LEVEL" with
     | .error e => .error e
     | .ok _ =>
       match s "NODE" with
       | some _ =>
         (match s.read "NODE_LEVEL" with
          | .error e => .error e
          | .ok _ => .ok plots)
       | none => .ok plots)
  | none =>
    match s "NODE" with
    | some _ =>
      (match s.read "NODE_LEVEL" with
       | .error e => .error e
       | .ok _ => .ok plots)
    | none => .ok plots

/-- Modelled from the spec: the `significance` module (q-value scaling) is
not among the sources at hand.  Raw Storey q-values before monotonization:
for the ascending-sorted p-value list, the entry of rank `k+1` (0-based
index `k`) is `p * n * pi0 / (k+1)` where `n` is the number of tests
(`q = p · (#tests) · pi0 / rank`). -/
def storeyRaw (n : ℕ) (pi0 : ℚ) : ℕ → List ℚ → List ℚ
  | _, [] => []
  | k, p :: ps => (p * n * pi0 / (k + 1)) :: storeyRaw n pi0 (k + 1) ps

/-- Modelled from the spec: monotonization "by cumulative minimum from the
largest p-value downward" — each entry becomes the minimum of itself and
everything after it. -/
def cumminRev : List ℚ → List ℚ
  | [] => []
  | x :: xs => min x ((cumminRev xs).headD x) :: cumminRev xs

/-- Modelled from the spec: the q-values the Significance Assessor attaches
to an ascending-sorted p-value list — Storey scaling then downward
cumulative-minimum monotonization. -/
def storeyQ (pi0 : ℚ) (ps : List ℚ) : List ℚ :=
  cumminRev (storeyRaw ps.length pi0 0 ps)

/-- The `export` command (`main.py`, `export`): read the five result tables
(in source order), then — only after all five reads succeeded — write the
five CSV files; the returned list is the CSV files written, so an exception
during the reads writes no CSV at all.  (SQLite table names are
case-insensitive; the lower-case names of the source are written in their
canonical upper case here.) -/
def exportCmd (s : Store) : Except String (List (String × Table)) :=
  match s.read "NODE" with
  | .error e => .error e
  | .ok node_data =>
  match s.read "NODE_LEVEL" with
  | .error e => .error e
  | .ok node_level_data =>
  match s.read "EDGE_DIRECTIONAL" with
  | .error e => .error e
  | .ok edge_directional_data =>
  match s.read "EDGE" with
  | .error e => .error e
  | .ok edge_data =>
  match s.read "EDGE_LEVEL" with
  | .error e => .error e
  | .ok edge_level_data =>
    .ok [("nodes.csv", node_data), ("nodes_level.csv", node_level_data),
         ("edges_directional.csv", edge_directional_data), ("edges.csv", edge_data),
         ("edges_level.csv", edge_level_data)]

/-! Helper lemmas about stores and the command bodies. -/

theorem Store.write_lookup_self (s : Store) (n : String) (t : Table) :
    (s.write n t) n = some t := by
  simp [Store.write]

theorem Store.write_lookup_other (s : Store) (n : String) (t : Table) {m : String}
    (h : m ≠ n) : (s.write n t) m = s m := by
  simp [Store.write, h]

theorem Store.write_eq_self {s : Store} {n : String} {t : Table} (h : s n = some t) :
    s.write n t = s := by
  funext m
  by_cases hm : m = n
  · subst hm; simp [Store.write, h]
  · simp [Store.write, hm]

theorem Store.write_isSome {s : Store} {n : String} (m : String) (t : Table)
    (h : ∃ u, s n = some u) : ∃ u, (s.write m t) n = some u := by
  by_cases hm : n = m
  · subst hm; exact ⟨t, by simp [Store.write]⟩
  · simpa [Store.write, hm] using h

theorem runScore_lookup_other (monomerC scoringC significanceC : Store → Except String Table)
    (s : Store) {n : String} (h1 : n ≠ "MONOMER") (h2 : n ≠ "FEATURE")
    (h3 : n ≠ "FEATURE_SCORED") :
    (runScore monomerC scoringC significanceC s).store n = s n := by
  cases hm : monomerC s with
  | error e => simp [runScore, hm]
  | ok mt =>
    cases hf : scoringC (s.write "MONOMER" mt) with
    | error e => simp [runScore, hm, hf, Store.write, h1]
    | ok ft =>
      cases hg : significanceC ((s.write "MONOMER" mt).write "FEATURE" ft) with
      | error e => simp [runScore, hm, hf, hg, Store.write, h1, h2]
      | ok st => simp [runScore, hm, hf, hg, Store.write, h1, h2, h3]

theorem runQuantify_lookup_other (qmC : Store → Except String Table)
    (qtC : Store → Except String QTResult) (s : Store) {n : String}
    (h1 : n ≠ "COMPLEX_QM") (h2 : n ≠ "EDGE_DIRECTIONAL") (h3 : n ≠ "EDGE")
    (h4 : n ≠ "EDGE_LEVEL") (h5 : n ≠ "NODE") (h6 : n ≠ "NODE_LEVEL") :
    (runQuantify qmC qtC s).store n = s n := by
  cases hq : qmC s with
  | error e => simp [runQuantify, hq]
  | ok qm =>
    cases ht : qtC (s.write "COMPLEX_QM" qm) with
    | error e => simp [runQuantify, hq, ht, Store.write, h1]
    | ok qt => simp [runQuantify, hq, ht, Store.write, h1, h2, h3, h4, h5, h6]

theorem runScore_store_isSome (monomerC scoringC significanceC : Store → Except String Table)
    (s : Store) (n : String) (h : ∃ u, s n = some u) :
    ∃ u, (runScore monomerC scoringC significanceC s).store n = some u := by
  cases hm : monomerC s with
  | error e => simpa [runScore, hm] using h
  | ok mt =>
    cases hf : scoringC (s.write "MONOMER" mt) with
    | error e =>
      simpa [runScore, hm, hf] using Store.write_isSome "MONOMER" mt h
    | ok ft =>
      cases hg : significanceC ((s.write "MONOMER" mt).write "FEATURE" ft) with
      | error e =>
        simpa [runScore, hm, hf, hg] using
          Store.write_isSome "FEATURE" ft (Store.write_isSome "MONOMER" mt h)
      | ok st =>
        simpa [runScore, hm, hf, hg] using
          Store.write_isSome "FEATURE_SCORED" st
            (Store.write_isSome "FEATURE" ft (Store.write_isSome "MONOMER" mt h))

theorem runQuantify_store_isSome (qmC : Store → Except String Table)
    (qtC : Store → Except String QTResult) (s : Store) (n : String)
    (h : ∃ u, s n = some u) :
    ∃ u, (runQuantify qmC qtC s).store n = some u := by
  cases hq : qmC s with
  | error e => simpa [runQuantify, hq] using h
  | ok qm =>
    cases ht : qtC (s.write "COMPLEX_QM" qm) with
    | error e =>
      simpa [runQuantify, hq, ht] using Store.write_isSome "COMPLEX_QM" qm h
    | ok qt =>
      simpa [runQuantify, hq, ht] using
        Store.write_isSome "NODE_LEVEL" qt.node_level
          (Store.write_isSome "NODE" qt.node
            (Store.write_isSome "EDGE_LEVEL" qt.edge_level
              (Store.write_isSome "EDGE" qt.edge
                (Store.write_isSome "EDGE_DIRECTIONAL" qt.edge_directional
                  (Store.write_isSome "COMPLEX_QM" qm h)))))

theorem quantLoop_lookup_other (quantificationOf : String → Table) (infiles : List String)
    (s : Store) {n : String} (h : n ≠ "QUANTIFICATION") :
    (quantLoop quantificationOf infiles s).1 n = s n := by
  induction infiles generalizing s with
  | nil => rfl
  | cons f rest ih =>
    simp only [quantLoop]
    rw [ih]
    simp [Store.append, h]

theorem runPreprocess_lookup_outside (d : PreprocessData) (infiles : List String)
    (keepP keepN keepS keepQ : List String → Bool) {n : String}
    (h1 : n ≠ "PROTEIN") (h2 : n ≠ "NETWORK") (h3 : n ≠ "SEC")
    (h4 : n ≠ "QUANTIFICATION") (h5 : n ≠ "PEPTIDE_META") (h6 : n ≠ "PROTEIN_META")
    (h7 : n ≠ "QUERY") :
    runPreprocess d infiles keepP keepN keepS keepQ n = none := by
  unfold runPreprocess
  simp only [Store.deleteRows, Store.write]
  simp only [h1, h2, h3, h5, h6, h7, if_false, ite_false, eq_self_iff_true]
  rw [quantLoop_lookup_other _ _ _ h4]
  simp [Store.write, Store.empty, h1, h2, h3]

/-! Helper lemmas for the Storey q-value model. -/

theorem length_cumminRev (l : List ℚ) : (cumminRev l).length = l.length := by
  induction l with
  | nil => rfl
  | cons x xs ih => simp [cumminRev, ih]

theorem length_storeyRaw (n : ℕ) (pi0 : ℚ) (k : ℕ) (ps : List ℚ) :
    (storeyRaw n pi0 k ps).length = ps.length := by
  induction ps generalizing k with
  | nil => rfl
  | cons p ps ih => simp [storeyRaw, ih]

theorem storeyRaw_getD (n : ℕ) (pi0 : ℚ) (k i : ℕ) (ps : List ℚ) (h : i < ps.length) :
    (storeyRaw n pi0 k ps).getD i 0 = ps.getD i 0 * n * pi0 / (k + i + 1) := by
  induction ps generalizing k i with
  | nil => simp at h
  | cons p ps ih =>
    cases i with
    | zero => simp [storeyRaw]
    | succ i =>
      simp only [storeyRaw, List.getD_cons_succ]
      rw [ih (k + 1) i (Nat.lt_of_succ_lt_succ h)]
      push_cast
      ring_nf

theorem cumminRev_getD_le (l : List ℚ) (i k : ℕ) (hik : i ≤ k) (hk : k < l.length) :
    (cumminRev l).getD i 0 ≤ l.getD k 0 := by
  induction l generalizing i k with
  | nil => simp at hk
  | cons x xs ih =>
    cases i with
    | zero =>
      cases k with
      | zero =>
        simp only [cumminRev, List.getD_cons_zero]
        exact min_le_left x ((cumminRev xs).headD x)
      | succ k =>
        have hk' : k < xs.length := Nat.lt_of_succ_lt_succ hk
        have hxs : 0 < (cumminRev xs).length := by
          rw [length_cumminRev]; exact Nat.lt_of_le_of_lt (Nat.zero_le _) hk'
        have hh : (cumminRev xs).headD x = (cumminRev xs).getD 0 0 := by
          cases hcc : cumminRev xs with
          | nil => rw [hcc] at hxs; simp at hxs
          | cons y ys => simp
        calc (cumminRev (x :: xs)).getD 0 0
            = min x ((cumminRev xs).headD x) := by simp [cumminRev]
          _ ≤ (cumminRev xs).headD x := min_le_right _ _
          _ = (cumminRev xs).getD 0 0 := hh
          _ ≤ xs.getD k 0 := ih 0 k (Nat.zero_le _) hk'
          _ = (x :: xs).getD (k + 1) 0 := (List.getD_cons_succ).symm
    | succ i =>
      cases k with
      | zero => exact absurd hik (by omega)
      | succ k =>
        simp only [cumminRev, List.getD_cons_succ]
        exact ih i k (Nat.le_of_succ_le_succ hik) (Nat.lt_of_succ_lt_succ hk)

theorem le_cumminRev_getD (l : List ℚ) (i : ℕ) (hi : i < l.length) (c : ℚ)
    (hc : ∀ k, i ≤ k → k < l.length → c ≤ l.getD k 0) :
    c ≤ (cumminRev l).getD i 0 := by
  induction l generalizing i with
  | nil => simp at hi
  | cons x xs ih =>
    cases i with
    | zero =>
      have hcx : c ≤ x := by simpa using hc 0 (Nat.le_refl 0) (by simp)
      have hgoal : (cumminRev (x :: xs)).getD 0 0 = min x ((cumminRev xs).headD x) := by
        simp [cumminRev]
      rw [hgoal]
      refine le_min hcx ?_
      cases hcc : cumminRev xs with
      | nil => simpa using hcx
      | cons y ys =>
        have hxs : 0 < xs.length := by
          rw [← length_cumminRev, hcc]; simp
        have htail : c ≤ (cumminRev xs).getD 0 0 := by
          refine ih 0 hxs (fun k _ hkl => ?_)
          simpa using hc (k + 1) (Nat.zero_le _) (Nat.succ_lt_succ hkl)
        simpa [hcc] using htail
    | succ i =>
      have hi' : i < xs.length := Nat.lt_of_succ_lt_succ hi
      simp only [cumminRev, List.getD_cons_succ]
      refine ih i hi' (fun k hk hkl => ?_)
      simpa using hc (k + 1) (Nat.succ_le_succ hk) (Nat.succ_lt_succ hkl)

theorem sorted_getD_le {ps : List ℚ} (h : List.Sorted (fun a b => a ≤ b) ps) {a b : ℕ}
    (hab : a ≤ b) (hb : b < ps.length) : ps.getD a 0 ≤ ps.getD b 0 := by
  have ha : a < ps.length := Nat.lt_of_le_of_lt hab hb
  rw [List.getD_eq_getElem _ _ ha, List.getD_eq_getElem _ _ hb]
  rcases Nat.eq_or_lt_of_le hab with rfl | hlt
  · exact le_refl _
  · have := List.pairwise_iff_get.1 h ⟨a, ha⟩ ⟨b, hb⟩ hlt
    simpa using this

theorem getD_nonneg {ps : List ℚ} (hnn : ∀ p ∈ ps, 0 ≤ p) {k : ℕ} (hk : k < ps.length) :
    0 ≤ ps.getD k 0 := by
  rw [List.getD_eq_getElem _ _ hk]
  exact hnn _ (List.getElem_mem hk)

theorem runScore_trace_head (monomerC scoringC significanceC : Store → Except String Table)
    (s : Store) :
    (runScore monomerC scoringC significanceC s).trace.head? = some (.compute "monomer") := by
  cases hm : monomerC s with
  | error e => simp [runScore, hm]
  | ok mt =>
    cases hf : scoringC (s.write "MONOMER" mt) with
    | error e => simp [runScore, hm, hf]
    | ok ft =>
      cases hg : significanceC ((s.write "MONOMER" mt).write "FEATURE" ft) with
      | error e => simp [runScore, hm, hf, hg]
      | ok st => simp [runScore, hm, hf, hg]

/-! Claim theorems. -/

/-- C1: `preprocess` appends every input file's quantification rows to the
`QUANTIFICATION` table, but then calls `meta` on the Python loop variable
`quantification_data`, which holds only the LAST input file's rows — with
two input files the argument handed to the meta derivation differs from the
union of all quantification rows, contradicting the claim (and the code's
own comment "over all conditions and replicates").  Evaluated here at a
concrete failing input: each file parses to a single one-cell row named
after the file. -/
theorem preprocess_meta_sees_only_last_infile :
    (quantLoop (fun f => [[f]]) ["pepquant1.tsv", "pepquant2.tsv"] Store.empty).2 =
      some [["pepquant2.tsv"]] ∧
    (quantLoop (fun f => [[f]]) ["pepquant1.tsv", "pepquant2.tsv"] Store.empty).1
      "QUANTIFICATION" = some [["pepquant1.tsv"], ["pepquant2.tsv"]] ∧
    (quantLoop (fun f => [[f]]) ["pepquant1.tsv", "pepquant2.tsv"] Store.empty).2 ≠
      (quantLoop (fun f => [[f]]) ["pepquant1.tsv", "pepquant2.tsv"] Store.empty).1
        "QUANTIFICATION" := by
  refine ⟨rfl, rfl, ?_⟩
  intro hcontra
  rw [show (quantLoop (fun f => [[f]]) ["pepquant1.tsv", "pepquant2.tsv"] Store.empty).2 =
      some [["pepquant2.tsv"]] from rfl] at hcontra
  rw [show (quantLoop (fun f => [[f]]) ["pepquant1.tsv", "pepquant2.tsv"] Store.empty).1
      "QUANTIFICATION" = some [["pepquant1.tsv"], ["pepquant2.tsv"]] from rfl] at hcontra
  simp at hcontra

/-- C2: in both `score` and `quantify`, every stage computation runs to
completion before its output tables are written; when the computation
raises, the command stops with the store exactly as it was when the stage
began — the stage's output tables are neither written nor replaced. -/
theorem stage_exception_leaves_store
    (monomerC scoringC significanceC qmC : Store → Except String Table)
    (qtC : Store → Except String QTResult) (s : Store) :
    (∀ e, monomerC s = .error e →
      (runScore monomerC scoringC significanceC s).store = s) ∧
    (∀ t e, monomerC s = .ok t → scoringC (s.write "MONOMER" t) = .error e →
      (runScore monomerC scoringC significanceC s).store = s.write "MONOMER" t) ∧
    (∀ t u e, monomerC s = .ok t → scoringC (s.write "MONOMER" t) = .ok u →
      significanceC ((s.write "MONOMER" t).write "FEATURE" u) = .error e →
      (runScore monomerC scoringC significanceC s).store =
        (s.write "MONOMER" t).write "FEATURE" u) ∧
    (∀ e, qmC s = .error e → (runQuantify qmC qtC s).store = s) ∧
    (∀ t e, qmC s = .ok t → qtC (s.write "COMPLEX_QM" t) = .error e →
      (runQuantify qmC qtC s).store = s.write "COMPLEX_QM" t) := by
  refine ⟨?_, ?_, ?_, ?_, ?_⟩
  · intro e he; simp [runScore, he]
  · intro t e ht he; simp [runScore, ht, he]
  · intro t u e ht hu he; simp [runScore, ht, hu, he]
  · intro e he; simp [runQuantify, he]
  · intro t e ht he; simp [runQuantify, ht, he]

/-- Witness for C2: a monomer stage raising at a concrete store leaves the
store untouched. -/
theorem stage_exception_leaves_store_witness :
    (runScore (fun _ => .error "boom") (fun _ => .ok []) (fun _ => .ok [])
      Store.empty).store = Store.empty :=
  (stage_exception_leaves_store (fun _ => .error "boom") (fun _ => .ok [])
    (fun _ => .ok []) (fun _ => .ok []) (fun _ => .ok ⟨[], [], [], [], []⟩)
    Store.empty).1 "boom" rfl

/-- C3 counterexample: with the invalid configuration `minimum_peptides = 5
> maximum_peptides = 4` and `minimum_mass_ratio = 2 ∉ [0,1]`, the `score`
command nevertheless starts the monomer-detection stage (first trace event)
and reports no error — the configuration is not rejected before stage
processing begins, contradicting the claim at this concrete input. -/
theorem score_invalid_config_not_rejected :
    (scoreCmd (fun _ _ => .ok []) (fun _ _ => .ok []) (fun _ _ => .ok [])
      ⟨2, 5, 4, 5, 2, 2, 50000⟩ "input.secat" none (fun _ => Store.empty)).2.2.head? =
      some (.compute "monomer") ∧
    (scoreCmd (fun _ _ => .ok []) (fun _ _ => .ok []) (fun _ _ => .ok [])
      ⟨2, 5, 4, 5, 2, 2, 50000⟩ "input.secat" none (fun _ => Store.empty)).2.1 = none :=
  ⟨rfl, rfl⟩

/-- C3 (amended): the `score` command performs no configuration validation
at all — for every configuration, valid or not (including
`minimum_peptides > maximum_peptides` and fractional thresholds outside
`[0,1]`), stage processing begins immediately: the first event of every run
is the start of the monomer-detection computation. -/
theorem score_starts_stages_for_any_config
    (monomerC scoringC significanceC : ScoreConfig → Store → Except String Table)
    (cfg : ScoreConfig) (infile : String) (outfile : Option String) (fs : FS) :
    (scoreCmd monomerC scoringC significanceC cfg infile outfile fs).2.2.head? =
      some (.compute "monomer") := by
  have hdef : (scoreCmd monomerC scoringC significanceC cfg infile outfile fs).2.2 =
      (runScore (monomerC cfg) (scoringC cfg) (significanceC cfg)
        ((match outfile with
          | none => fs
          | some o => fs.copy infile o) (outfile.getD infile))).trace := by
    cases outfile <;> rfl
  rw [hdef]
  exact runScore_trace_head _ _ _ _

/-- C4: after the `DELETE` of `preprocess`, every remaining row of the
`QUERY` table has both its `bait_id` and its `prey_id` among the distinct
`protein_id`s of the `QUANTIFICATION` table. -/
theorem query_rows_reference_observed_proteins (query : List QueryRow)
    (quant : List QuantRow) (r : QueryRow)
    (hr : r ∈ deleteQueryUnobserved query (distinctProteinIds quant)) :
    r.bait_id ∈ distinctProteinIds quant ∧ r.prey_id ∈ distinctProteinIds quant := by
  have hmem := List.mem_filter.1 hr
  have hcond := hmem.2
  simp only [Bool.not_eq_true', Bool.or_eq_false_iff, decide_eq_false_iff_not,
    Decidable.not_not] at hcond
  exact hcond

/-- Witness for C4 at a concrete query universe and quantification table. -/
theorem query_rows_reference_observed_proteins_witness :
    (⟨"P1", "P2", false⟩ : QueryRow) ∈
      deleteQueryUnobserved [⟨"P1", "P2", false⟩, ⟨"P1", "P9", false⟩]
        (distinctProteinIds [⟨"run1", "P1", "pep1", 100⟩, ⟨"run1", "P2", "pep2", 50⟩]) ∧
    ("P1" ∈ distinctProteinIds [⟨"run1", "P1", "pep1", 100⟩, ⟨"run1", "P2", "pep2", 50⟩] ∧
     "P2" ∈ distinctProteinIds [⟨"run1", "P1", "pep1", 100⟩, ⟨"run1", "P2", "pep2", 50⟩]) :=
  ⟨by decide,
   query_rows_reference_observed_proteins [⟨"P1", "P2", false⟩, ⟨"P1", "P9", false⟩]
     [⟨"run1", "P1", "pep1", 100⟩, ⟨"run1", "P2", "pep2", 50⟩]
     ⟨"P1", "P2", false⟩ (by decide)⟩

/-- C5: the stages of `score` run in the order monomer detection, feature
scoring, significance assessment, and those of `quantify` in the order
quantitative matrix, differential test; each stage's output tables are
written before the next stage's computation starts.  The event trace of any
run is a prefix of the canonical ordered event list, and a run without an
exception produces exactly that list. -/
theorem stages_run_in_order
    (monomerC scoringC significanceC qmC : Store → Except String Table)
    (qtC : Store → Except String QTResult) (s s' : Store) :
    ((runScore monomerC scoringC significanceC s).trace <+:
      [.compute "monomer", .write "MONOMER", .compute "scoring", .write "FEATURE",
       .compute "significance", .write "FEATURE_SCORED"]) ∧
    ((runScore monomerC scoringC significanceC s).err = none →
      (runScore monomerC scoringC significanceC s).trace =
        [.compute "monomer", .write "MONOMER", .compute "scoring", .write "FEATURE",
         .compute "significance", .write "FEATURE_SCORED"]) ∧
    ((runQuantify qmC qtC s').trace <+:
      [.compute "quantitative_matrix", .write "COMPLEX_QM", .compute "quantitative_test",
       .write "EDGE_DIRECTIONAL", .write "EDGE", .write "EDGE_LEVEL", .write "NODE",
       .write "NODE_LEVEL"]) ∧
    ((runQuantify qmC qtC s').err = none →
      (runQuantify qmC qtC s').trace =
        [.compute "quantitative_matrix", .write "COMPLEX_QM", .compute "quantitative_test",
         .write "EDGE_DIRECTIONAL", .write "EDGE", .write "EDGE_LEVEL", .write "NODE",
         .write "NODE_LEVEL"]) := by
  refine ⟨?_, ?_, ?_, ?_⟩
  · cases hm : monomerC s with
    | error e =>
      refine ⟨[.write "MONOMER", .compute "scoring", .write "FEATURE",
        .compute "significance", .write "FEATURE_SCORED"], ?_⟩
      simp [runScore, hm]
    | ok mt =>
      cases hf : scoringC (s.write "MONOMER" mt) with
      | error e =>
        refine ⟨[.write "FEATURE", .compute "significance", .write "FEATURE_SCORED"], ?_⟩
        simp [runScore, hm, hf]
      | ok ft =>
        cases hg : significanceC ((s.write "MONOMER" mt).write "FEATURE" ft) with
        | error e =>
          refine ⟨[.write "FEATURE_SCORED"], ?_⟩
          simp [runScore, hm, hf, hg]
        | ok st =>
          refine ⟨[], ?_⟩
          simp [runScore, hm, hf, hg]
  · intro hok
    cases hm : monomerC s with
    | error e => simp [runScore, hm] at hok
    | ok mt =>
      cases hf : scoringC (s.write "MONOMER" mt) with
      | error e => simp [runScore, hm, hf] at hok
      | ok ft =>
        cases hg : significanceC ((s.write "MONOMER" mt).write "FEATURE" ft) with
        | error e => simp [runScore, hm, hf, hg] at hok
        | ok st => simp [runScore, hm, hf, hg]
  · cases hq : qmC s' with
    | error e =>
      refine ⟨[.write "COMPLEX_QM", .compute "quantitative_test", .write "EDGE_DIRECTIONAL",
        .write "EDGE", .write "EDGE_LEVEL", .write "NODE", .write "NODE_LEVEL"], ?_⟩
      simp [runQuantify, hq]
    | ok qm =>
      cases ht : qtC (s'.write "COMPLEX_QM" qm) with
      | error e =>
        refine ⟨[.write "EDGE_DIRECTIONAL", .write "EDGE", .write "EDGE_LEVEL",
          .write "NODE", .write "NODE_LEVEL"], ?_⟩
        simp [runQuantify, hq, ht]
      | ok qt =>
        refine ⟨[], ?_⟩
        simp [runQuantify, hq, ht]
  · intro hok
    cases hq : qmC s' with
    | error e => simp [runQuantify, hq] at hok
    | ok qm =>
      cases ht : qtC (s'.write "COMPLEX_QM" qm) with
      | error e => simp [runQuantify, hq, ht] at hok
      | ok qt => simp [runQuantify, hq, ht]

/-- Witness for C5: successful runs at concrete stage computations produce
exactly the canonical ordered traces. -/
theorem stages_run_in_order_witness :
    (runScore (fun _ => .ok []) (fun _ => .ok []) (fun _ => .ok []) Store.empty).trace =
      [.compute "monomer", .write "MONOMER", .compute "scoring", .write "FEATURE",
       .compute "significance", .write "FEATURE_SCORED"] ∧
    (runQuantify (fun _ => .ok []) (fun _ => .ok ⟨[], [], [], [], []⟩) Store.empty).trace =
      [.compute "quantitative_matrix", .write "COMPLEX_QM", .compute "quantitative_test",
       .write "EDGE_DIRECTIONAL", .write "EDGE", .write "EDGE_LEVEL", .write "NODE",
       .write "NODE_LEVEL"] :=
  ⟨(stages_run_in_order (fun _ => .ok []) (fun _ => .ok []) (fun _ => .ok [])
      (fun _ => .ok []) (fun _ => .ok ⟨[], [], [], [], []⟩) Store.empty Store.empty).2.1 rfl,
   (stages_run_in_order (fun _ => .ok []) (fun _ => .ok []) (fun _ => .ok [])
      (fun _ => .ok []) (fun _ => .ok ⟨[], [], [], [], []⟩) Store.empty Store.empty).2.2.2 rfl⟩

theorem produced_store_lacks_combined {s : Store} (h : Produced s) :
    s "FEATURE_SCORED_COMBINED" = none := by
  induction h with
  | preprocess d infiles keepP keepN keepS keepQ =>
    exact runPreprocess_lookup_outside _ _ _ _ _ _ (by decide) (by decide) (by decide)
      (by decide) (by decide) (by decide) (by decide)
  | score monomerC scoringC significanceC s hs ih =>
    rw [runScore_lookup_other _ _ _ _ (by decide) (by decide) (by decide)]
    exact ih
  | quantify qmC qtC s hs ih =>
    rw [runQuantify_lookup_other _ _ _ (by decide) (by decide) (by decide) (by decide)
      (by decide) (by decide)]
    exact ih

theorem plot_features_error_of_no_combined (s : Store) (plots : List String)
    (h : s "FEATURE_SCORED_COMBINED" = none) :
    ∃ n, plot_features s plots = Except.error ("no such table: " ++ n) := by
  rcases h1 : s "FEATURE_SCORED" with _ | t1
  · exact ⟨"FEATURE_SCORED", by simp [plot_features, Store.read, h1]⟩
  rcases h2 : s "QUANTIFICATION" with _ | t2
  · exact ⟨"QUANTIFICATION", by simp [plot_features, Store.read, h1, h2]⟩
  rcases h3 : s "PROTEIN_META" with _ | t3
  · exact ⟨"PROTEIN_META", by simp [plot_features, Store.read, h1, h2, h3]⟩
  rcases h4 : s "PEPTIDE_META" with _ | t4
  · exact ⟨"PEPTIDE_META", by simp [plot_features, Store.read, h1, h2, h3, h4]⟩
  rcases h5 : s "SEC" with _ | t5
  · exact ⟨"SEC", by simp [plot_features, Store.read, h1, h2, h3, h4, h5]⟩
  rcases h6 : s "MONOMER" with _ | t6
  · exact ⟨"MONOMER", by simp [plot_features, Store.read, h1, h2, h3, h4, h5, h6]⟩
  exact ⟨"FEATURE_SCORED_COMBINED",
    by simp [plot_features, Store.read, h1, h2, h3, h4, h5, h6, h]⟩

/-- C7: every database a pipeline run can produce (preprocess, then score
and quantify in any combination) lacks the `FEATURE_SCORED_COMBINED` table
— `score` writes `FEATURE_SCORED` instead — while `read_interactions_dmeta`
reads it unconditionally during `plot_features.__init__`; so constructing
`plot_features` on such a database fails with a missing-table error and,
the reads all preceding any plotting, produces no plot (an `Except.error`
result carries no plot list). -/
theorem plot_features_always_fails_on_pipeline_output (s : Store) (plots : List String)
    (h : Produced s) :
    s "FEATURE_SCORED_COMBINED" = none ∧
    ∃ n, plot_features s plots = Except.error ("no such table: " ++ n) :=
  ⟨produced_store_lacks_combined h,
   plot_features_error_of_no_combined s plots (produced_store_lacks_combined h)⟩

/-- Witness for C7: a full preprocess–score–quantify pipeline run at
concrete stage computations yields a database on which `plot_features`
fails with a missing-table error. -/
theorem plot_features_always_fails_witness :
    Produced ((runQuantify (fun _ => .ok []) (fun _ => .ok ⟨[], [], [], [], []⟩)
      (runScore (fun _ => .ok []) (fun _ => .ok []) (fun _ => .ok [])
        (runPreprocess ⟨[], [], [], fun _ => [], [], [], []⟩ ["pepquant.tsv"]
          (fun _ => true) (fun _ => true) (fun _ => true) (fun _ => true))).store).store) ∧
    ∃ n, plot_features ((runQuantify (fun _ => .ok []) (fun _ => .ok ⟨[], [], [], [], []⟩)
      (runScore (fun _ => .ok []) (fun _ => .ok []) (fun _ => .ok [])
        (runPreprocess ⟨[], [], [], fun _ => [], [], [], []⟩ ["pepquant.tsv"]
          (fun _ => true) (fun _ => true) (fun _ => true) (fun _ => true))).store).store) [] =
      Except.error ("no such table: " ++ n) :=
  ⟨Produced.quantify _ _ _ (Produced.score _ _ _ _ (Produced.preprocess _ _ _ _ _ _)),
   (plot_features_always_fails_on_pipeline_output _ []
     (Produced.quantify _ _ _ (Produced.score _ _ _ _
       (Produced.preprocess _ _ _ _ _ _)))).2⟩

/-- C9: when any of the five result tables is absent, the `export` command
fails with the missing-table error raised during the reads — which all
precede the CSV writes — and therefore writes no CSV file at all (an
`Except.error` result carries no CSV list). -/
theorem export_missing_table_writes_no_csv (s : Store)
    (h : s "NODE" = none ∨ s "NODE_LEVEL" = none ∨ s "EDGE_DIRECTIONAL" = none ∨
      s "EDGE" = none ∨ s "EDGE_LEVEL" = none) :
    (∃ n, exportCmd s = Except.error ("no such table: " ++ n)) ∧
    ∀ csvs, exportCmd s ≠ Except.ok csvs := by
  have herr : ∃ n, exportCmd s = Except.error ("no such table: " ++ n) := by
    rcases h1 : s "NODE" with _ | t1
    · exact ⟨"NODE", by simp [exportCmd, Store.read, h1]⟩
    rcases h2 : s "NODE_LEVEL" with _ | t2
    · exact ⟨"NODE_LEVEL", by simp [exportCmd, Store.read, h1, h2]⟩
    rcases h3 : s "EDGE_DIRECTIONAL" with _ | t3
    · exact ⟨"EDGE_DIRECTIONAL", by simp [exportCmd, Store.read, h1, h2, h3]⟩
    rcases h4 : s "EDGE" with _ | t4
    · exact ⟨"EDGE", by simp [exportCmd, Store.read, h1, h2, h3, h4]⟩
    rcases h5 : s "EDGE_LEVEL" with _ | t5
    · exact ⟨"EDGE_LEVEL", by simp [exportCmd, Store.read, h1, h2, h3, h4, h5]⟩
    rcases h with hh | hh | hh | hh | hh <;> simp_all
  refine ⟨herr, ?_⟩
  rcases herr with ⟨n, hn⟩
  intro csvs hc
  rw [hn] at hc
  exact Except.noConfusion hc

/-- Witness for C9: on an empty database `export` fails with a
missing-table error. -/
theorem export_missing_table_writes_no_csv_witness :
    Store.empty "NODE" = none ∧
    ∃ n, exportCmd Store.empty = Except.error ("no such table: " ++ n) :=
  ⟨rfl, (export_missing_table_writes_no_csv Store.empty (Or.inl rfl)).1⟩

/-- C10: running `score` or `quantify` with an explicit `--out` path
different from the input first copies the input file to the output path and
then adds or replaces the stage output tables in the copy: the input file
is left unchanged, and every table present in the input file is still
present (possibly replaced) in the output file, whatever the stage
computations do. -/
theorem out_path_preserves_input
    (monomerC scoringC significanceC : ScoreConfig → Store → Except String Table)
    (cfg : ScoreConfig) (qmC : Store → Except String Table)
    (qtC : Store → Except String QTResult) (infile o : String) (fs : FS)
    (h : o ≠ infile) :
    ((scoreCmd monomerC scoringC significanceC cfg infile (some o) fs).1 infile =
        fs infile ∧
      ∀ n, (∃ t, fs infile n = some t) →
        ∃ u, (scoreCmd monomerC scoringC significanceC cfg infile (some o) fs).1 o n =
          some u) ∧
    ((quantifyCmd qmC qtC infile (some o) fs).1 infile = fs infile ∧
      ∀ n, (∃ t, fs infile n = some t) →
        ∃ u, (quantifyCmd qmC qtC infile (some o) fs).1 o n = some u) := by
  have hio : infile ≠ o := Ne.symm h
  refine ⟨⟨?_, ?_⟩, ⟨?_, ?_⟩⟩
  · simp [scoreCmd, FS.copy, FS.put, hio]
  · intro n hn
    have hout : (scoreCmd monomerC scoringC significanceC cfg infile (some o) fs).1 o =
        (runScore (monomerC cfg) (scoringC cfg) (significanceC cfg) (fs infile)).store := by
      simp [scoreCmd, FS.copy, FS.put]
    rw [hout]
    exact runScore_store_isSome _ _ _ _ n hn
  · simp [quantifyCmd, FS.copy, FS.put, hio]
  · intro n hn
    have hout : (quantifyCmd qmC qtC infile (some o) fs).1 o =
        (runQuantify qmC qtC (fs infile)).store := by
      simp [quantifyCmd, FS.copy, FS.put]
    rw [hout]
    exact runQuantify_store_isSome _ _ _ n hn

/-- Witness for C10 at concrete distinct paths, stage computations and a
one-table input file. -/
theorem out_path_preserves_input_witness :
    (scoreCmd (fun _ _ => .ok []) (fun _ _ => .ok []) (fun _ _ => .ok [])
        ⟨2, 4, 4, 5, 1/5, 2, 50000⟩ "in.secat" (some "out.secat")
        (fun _ => Store.empty.write "PROTEIN" [])).1 "in.secat" =
      (fun _ => Store.empty.write "PROTEIN" [] : FS) "in.secat" ∧
    (∃ u, (scoreCmd (fun _ _ => .ok []) (fun _ _ => .ok []) (fun _ _ => .ok [])
        ⟨2, 4, 4, 5, 1/5, 2, 50000⟩ "in.secat" (some "out.secat")
        (fun _ => Store.empty.write "PROTEIN" [])).1 "out.secat" "PROTEIN" = some u) ∧
    (∃ u, (quantifyCmd (fun _ => .ok []) (fun _ => .ok ⟨[], [], [], [], []⟩)
        "in.secat" (some "out.secat")
        (fun _ => Store.empty.write "PROTEIN" [])).1 "out.secat" "PROTEIN" = some u) :=
  ⟨(out_path_preserves_input (fun _ _ => .ok []) (fun _ _ => .ok []) (fun _ _ => .ok [])
      ⟨2, 4, 4, 5, 1/5, 2, 50000⟩ (fun _ => .ok []) (fun _ => .ok ⟨[], [], [], [], []⟩)
      "in.secat" "out.secat" (fun _ => Store.empty.write "PROTEIN" [])
      (by decide)).1.1,
   (out_path_preserves_input (fun _ _ => .ok []) (fun _ _ => .ok []) (fun _ _ => .ok [])
      ⟨2, 4, 4, 5, 1/5, 2, 50000⟩ (fun _ => .ok []) (fun _ => .ok ⟨[], [], [], [], []⟩)
      "in.secat" "out.secat" (fun _ => Store.empty.write "PROTEIN" [])
      (by decide)).1.2 "PROTEIN" ⟨[], rfl⟩,
   (out_path_preserves_input (fun _ _ => .ok []) (fun _ _ => .ok []) (fun _ _ => .ok [])
      ⟨2, 4, 4, 5, 1/5, 2, 50000⟩ (fun _ => .ok []) (fun _ => .ok ⟨[], [], [], [], []⟩)
      "in.secat" "out.secat" (fun _ => Store.empty.write "PROTEIN" [])
      (by decide)).2.2 "PROTEIN" ⟨[], rfl⟩⟩

/-- C6: the q-values of the Significance Assessor are monotonically
non-decreasing in the p-values — for any two positions of an
ascending-sorted non-negative p-value list, if one position's p-value is at
most the other's, its q-value is at most the other's (the Storey
monotonization property, including tied p-values). -/
theorem qvalues_monotone_in_pvalues (pi0 : ℚ) (ps : List ℚ)
    (hsort : List.Sorted (fun a b => a ≤ b) ps) (hpi : 0 ≤ pi0)
    (hnn : ∀ p ∈ ps, 0 ≤ p) (i j : ℕ) (hi : i < ps.length) (hj : j < ps.length)
    (hp : ps.getD i 0 ≤ ps.getD j 0) :
    (storeyQ pi0 ps).getD i 0 ≤ (storeyQ pi0 ps).getD j 0 := by
  have hlen : (storeyRaw ps.length pi0 0 ps).length = ps.length :=
    length_storeyRaw _ _ _ _
  rcases le_or_lt i j with hij | hji
  · unfold storeyQ
    refine le_cumminRev_getD _ j (by rw [hlen]; exact hj) _ (fun k hk hkl => ?_)
    exact cumminRev_getD_le _ i k (le_trans hij hk) hkl
  · have hpj : ps.getD j 0 ≤ ps.getD i 0 := sorted_getD_le hsort (Nat.le_of_lt hji) hi
    have heq : ps.getD i 0 = ps.getD j 0 := le_antisymm hp hpj
    unfold storeyQ
    refine le_cumminRev_getD _ j (by rw [hlen]; exact hj) _ (fun k hk hkl => ?_)
    rcases le_or_lt i k with hik | hki
    · exact cumminRev_getD_le _ i k hik hkl
    · have hkps : k < ps.length := by rwa [hlen] at hkl
      have hpk : ps.getD k 0 = ps.getD i 0 := by
        have hjk : ps.getD j 0 ≤ ps.getD k 0 := sorted_getD_le hsort hk hkps
        have hki' : ps.getD k 0 ≤ ps.getD i 0 :=
          sorted_getD_le hsort (Nat.le_of_lt hki) hi
        exact le_antisymm hki' (heq ▸ hjk)
      have hrawk : (storeyRaw ps.length pi0 0 ps).getD k 0 =
          ps.getD i 0 * ps.length * pi0 / (k + 1) := by
        rw [storeyRaw_getD _ _ _ _ _ hkps, hpk]
        norm_num
      have hrawi : (storeyRaw ps.length pi0 0 ps).getD i 0 =
          ps.getD i 0 * ps.length * pi0 / (i + 1) := by
        rw [storeyRaw_getD _ _ _ _ _ hi]
        norm_num
      have hqi : (cumminRev (storeyRaw ps.length pi0 0 ps)).getD i 0 ≤
          (storeyRaw ps.length pi0 0 ps).getD i 0 :=
        cumminRev_getD_le _ i i (Nat.le_refl i) (by rw [hlen]; exact hi)
      refine le_trans hqi ?_
      rw [hrawk, hrawi]
      have hnum : 0 ≤ ps.getD i 0 * ps.length * pi0 := by
        have hp0 : 0 ≤ ps.getD i 0 := getD_nonneg hnn hi
        positivity
      gcongr

/-- Witness for C6 at a concrete sorted p-value list (with a tie). -/
theorem qvalues_monotone_in_pvalues_witness :
    List.Sorted (fun a b => a ≤ b) [(0 : ℚ), 1, 1] ∧
    (storeyQ 1 [(0 : ℚ), 1, 1]).getD 0 0 ≤ (storeyQ 1 [(0 : ℚ), 1, 1]).getD 2 0 :=
  ⟨by decide,
   qvalues_monotone_in_pvalues 1 [(0 : ℚ), 1, 1] (by decide) (by decide)
     (by decide) 0 2 (by decide) (by decide) (by decide)⟩

/-- Two stores that agree on every table whose name is outside the given
list. -/
def agreeOutside (names : List String) (s s' : Store) : Prop :=
  ∀ n, n ∉ names → s n = s' n

theorem agreeOutside_write (names : List String) (s : Store) (n : String) (t : Table)
    (hn : n ∈ names) : agreeOutside names (s.write n t) s := by
  intro m hm
  have hne : m ≠ n := fun hc => hm (hc ▸ hn)
  simp [Store.write, hne]

theorem agreeOutside_trans {names : List String} {s1 s2 s3 : Store}
    (h1 : agreeOutside names s1 s2) (h2 : agreeOutside names s2 s3) :
    agreeOutside names s1 s3 :=
  fun n hn => (h1 n hn).trans (h2 n hn)

theorem runScore_idem (monomerC scoringC significanceC : Store → Except String Table)
    (s : Store)
    (hm : ∀ t t', agreeOutside ["MONOMER", "FEATURE", "FEATURE_SCORED"] t t' →
      monomerC t = monomerC t')
    (hf : ∀ t t', agreeOutside ["FEATURE", "FEATURE_SCORED"] t t' →
      scoringC t = scoringC t')
    (hg : ∀ t t', agreeOutside ["FEATURE_SCORED"] t t' →
      significanceC t = significanceC t') :
    runScore monomerC scoringC significanceC
      (runScore monomerC scoringC significanceC s).store =
      runScore monomerC scoringC significanceC s := by
  cases hms : monomerC s with
  | error e => simp [runScore, hms]
  | ok mt =>
    cases hfs : scoringC (s.write "MONOMER" mt) with
    | error e =>
      have e1 : monomerC (s.write "MONOMER" mt) = monomerC s :=
        hm _ _ (agreeOutside_write _ _ _ _ (by simp))
      have e2 : (s.write "MONOMER" mt).write "MONOMER" mt = s.write "MONOMER" mt :=
        Store.write_eq_self (Store.write_lookup_self s "MONOMER" mt)
      simp [runScore, hms, hfs, e1, e2]
    | ok ft =>
      cases hgs : significanceC ((s.write "MONOMER" mt).write "FEATURE" ft) with
      | error e =>
        have e1 : monomerC ((s.write "MONOMER" mt).write "FEATURE" ft) = monomerC s :=
          hm _ _ (agreeOutside_trans (agreeOutside_write _ _ _ _ (by simp))
            (agreeOutside_write _ _ _ _ (by simp)))
        have e2 : ((s.write "MONOMER" mt).write "FEATURE" ft).write "MONOMER" mt =
            (s.write "MONOMER" mt).write "FEATURE" ft :=
          Store.write_eq_self (by
            rw [Store.write_lookup_other _ _ _ (by decide)]
            exact Store.write_lookup_self s "MONOMER" mt)
        have e3 : scoringC ((s.write "MONOMER" mt).write "FEATURE" ft) =
            scoringC (s.write "MONOMER" mt) :=
          hf _ _ (agreeOutside_write _ _ _ _ (by simp))
        have e4 : ((s.write "MONOMER" mt).write "FEATURE" ft).write "FEATURE" ft =
            (s.write "MONOMER" mt).write "FEATURE" ft :=
          Store.write_eq_self (Store.write_lookup_self _ "FEATURE" ft)
        simp [runScore, hms, hfs, hgs, e1, e2, e3, e4]
      | ok st =>
        have e1 : monomerC (((s.write "MONOMER" mt).write "FEATURE" ft).write
            "FEATURE_SCORED" st) = monomerC s :=
          hm _ _ (agreeOutside_trans (agreeOutside_write _ _ _ _ (by simp))
            (agreeOutside_trans (agreeOutside_write _ _ _ _ (by simp))
              (agreeOutside_write _ _ _ _ (by simp))))
        have e2 : (((s.write "MONOMER" mt).write "FEATURE" ft).write
            "FEATURE_SCORED" st).write "MONOMER" mt =
            ((s.write "MONOMER" mt).write "FEATURE" ft).write "FEATURE_SCORED" st :=
          Store.write_eq_self (by
            rw [Store.write_lookup_other _ _ _ (by decide),
              Store.write_lookup_other _ _ _ (by decide)]
            exact Store.write_lookup_self s "MONOMER" mt)
        have e3 : scoringC (((s.write "MONOMER" mt).write "FEATURE" ft).write
            "FEATURE_SCORED" st) = scoringC (s.write "MONOMER" mt) :=
          hf _ _ (agreeOutside_trans (agreeOutside_write _ _ _ _ (by simp))
            (agreeOutside_write _ _ _ _ (by simp)))
        have e4 : (((s.write "MONOMER" mt).write "FEATURE" ft).write
            "FEATURE_SCORED" st).write "FEATURE" ft =
            ((s.write "MONOMER" mt).write "FEATURE" ft).write "FEATURE_SCORED" st :=
          Store.write_eq_self (by
            rw [Store.write_lookup_other _ _ _ (by decide)]
            exact Store.write_lookup_self _ "FEATURE" ft)
        have e5 : significanceC (((s.write "MONOMER" mt).write "FEATURE" ft).write
            "FEATURE_SCORED" st) =
            significanceC ((s.write "MONOMER" mt).write "FEATURE" ft) :=
          hg _ _ (agreeOutside_write _ _ _ _ (by simp))
        have e6 : (((s.write "MONOMER" mt).write "FEATURE" ft).write
            "FEATURE_SCORED" st).write "FEATURE_SCORED" st =
            ((s.write "MONOMER" mt).write "FEATURE" ft).write "FEATURE_SCORED" st :=
          Store.write_eq_self (Store.write_lookup_self _ "FEATURE_SCORED" st)
        simp [runScore, hms, hfs, hgs, e1, e2, e3, e4, e5, e6]

theorem runQuantify_idem (qmC : Store → Except String Table)
    (qtC : Store → Except String QTResult) (s : Store)
    (hqm : ∀ t t', agreeOutside ["COMPLEX_QM", "EDGE_DIRECTIONAL", "EDGE", "EDGE_LEVEL",
      "NODE", "NODE_LEVEL"] t t' → qmC t = qmC t')
    (hqt : ∀ t t', agreeOutside ["EDGE_DIRECTIONAL", "EDGE", "EDGE_LEVEL", "NODE",
      "NODE_LEVEL"] t t' → qtC t = qtC t') :
    runQuantify qmC qtC (runQuantify qmC qtC s).store = runQuantify qmC qtC s := by
  cases hqs : qmC s with
  | error e => simp [runQuantify, hqs]
  | ok qm =>
    cases hts : qtC (s.write "COMPLEX_QM" qm) with
    | error e =>
      have e1 : qmC (s.write "COMPLEX_QM" qm) = qmC s :=
        hqm _ _ (agreeOutside_write _ _ _ _ (by simp))
      have e2 : (s.write "COMPLEX_QM" qm).write "COMPLEX_QM" qm =
          s.write "COMPLEX_QM" qm :=
        Store.write_eq_self (Store.write_lookup_self s "COMPLEX_QM" qm)
      simp [runQuantify, hqs, hts, e1, e2]
    | ok qt =>
      set sF := (((((s.write "COMPLEX_QM" qm).write
        "EDGE_DIRECTIONAL" qt.edge_directional).write "EDGE" qt.edge).write
        "EDGE_LEVEL" qt.edge_level).write "NODE" qt.node).write
        "NODE_LEVEL" qt.node_level with hsF
      have hrun1 : runQuantify qmC qtC s =
          ⟨sF, none,
           [.compute "quantitative_matrix", .write "COMPLEX_QM",
            .compute "quantitative_test", .write "EDGE_DIRECTIONAL", .write "EDGE",
            .write "EDGE_LEVEL", .write "NODE", .write "NODE_LEVEL"]⟩ := by
        simp [runQuantify, hqs, hts, hsF]
      rw [hrun1]
      have e1 : qmC sF = qmC s := by
        rw [hsF]
        exact hqm _ _ (agreeOutside_trans (agreeOutside_write _ _ _ _ (by simp))
          (agreeOutside_trans (agreeOutside_write _ _ _ _ (by simp))
            (agreeOutside_trans (agreeOutside_write _ _ _ _ (by simp))
              (agreeOutside_trans (agreeOutside_write _ _ _ _ (by simp))
                (agreeOutside_trans (agreeOutside_write _ _ _ _ (by simp))
                  (agreeOutside_write _ _ _ _ (by simp)))))))
      have l2 : sF "COMPLEX_QM" = some qm := by
        rw [hsF]
        rw [Store.write_lookup_other _ _ _ (by decide),
          Store.write_lookup_other _ _ _ (by decide),
          Store.write_lookup_other _ _ _ (by decide),
          Store.write_lookup_other _ _ _ (by decide),
          Store.write_lookup_other _ _ _ (by decide)]
        exact Store.write_lookup_self s "COMPLEX_QM" qm
      have e2 : sF.write "COMPLEX_QM" qm = sF := Store.write_eq_self l2
      have e3 : qtC sF = qtC (s.write "COMPLEX_QM" qm) := by
        rw [hsF]
        exact hqt _ _ (agreeOutside_trans (agreeOutside_write _ _ _ _ (by simp))
          (agreeOutside_trans (agreeOutside_write _ _ _ _ (by simp))
            (agreeOutside_trans (agreeOutside_write _ _ _ _ (by simp))
              (agreeOutside_trans (agreeOutside_write _ _ _ _ (by simp))
                (agreeOutside_write _ _ _ _ (by simp))))))
      have l4 : sF "EDGE_DIRECTIONAL" = some qt.edge_directional := by
        rw [hsF]
        rw [Store.write_lookup_other _ _ _ (by decide),
          Store.write_lookup_other _ _ _ (by decide),
          Store.write_lookup_other _ _ _ (by decide),
          Store.write_lookup_other _ _ _ (by decide)]
        exact Store.write_lookup_self _ "EDGE_DIRECTIONAL" qt.edge_directional
      have e4 : sF.write "EDGE_DIRECTIONAL" qt.edge_directional = sF :=
        Store.write_eq_self l4
      have l5 : sF "EDGE" = some qt.edge := by
        rw [hsF]
        rw [Store.write_lookup_other _ _ _ (by decide),
          Store.write_lookup_other _ _ _ (by decide),
          Store.write_lookup_other _ _ _ (by decide)]
        exact Store.write_lookup_self _ "EDGE" qt.edge
      have e5 : sF.write "EDGE" qt.edge = sF := Store.write_eq_self l5
      have l6 : sF "EDGE_LEVEL" = some qt.edge_level := by
        rw [hsF]
        rw [Store.write_lookup_other _ _ _ (by decide),
          Store.write_lookup_other _ _ _ (by decide)]
        exact Store.write_lookup_self _ "EDGE_LEVEL" qt.edge_level
      have e6 : sF.write "EDGE_LEVEL" qt.edge_level = sF := Store.write_eq_self l6
      have l7 : sF "NODE" = some qt.node := by
        rw [hsF]
        rw [Store.write_lookup_other _ _ _ (by decide)]
        exact Store.write_lookup_self _ "NODE" qt.node
      have e7 : sF.write "NODE" qt.node = sF := Store.write_eq_self l7
      have l8 : sF "NODE_LEVEL" = some qt.node_level := by
        rw [hsF]
        exact Store.write_lookup_self _ "NODE_LEVEL" qt.node_level
      have e8 : sF.write "NODE_LEVEL" qt.node_level = sF := Store.write_eq_self l8
      simp [runQuantify, e1, hqs, e2, e3, hts, e4, e5, e6, e7, e8]

/-- C8: rerunning a stage command in place with unchanged inputs reproduces
the outcome bit-identically — given that each stage computation reads only
tables other than its own command's outputs (the spec's replace-on-write
read discipline), running `score` (resp. `quantify`) a second time on the
store the first run produced yields exactly the same outcome, in particular
identical `MONOMER`, `FEATURE`, `FEATURE_SCORED`, `COMPLEX_QM` and
`EDGE`/`NODE` tables. -/
theorem rerun_stage_bit_identical
    (monomerC scoringC significanceC qmC : Store → Except String Table)
    (qtC : Store → Except String QTResult) (s s' : Store)
    (hm : ∀ t t', agreeOutside ["MONOMER", "FEATURE", "FEATURE_SCORED"] t t' →
      monomerC t = monomerC t')
    (hf : ∀ t t', agreeOutside ["FEATURE", "FEATURE_SCORED"] t t' →
      scoringC t = scoringC t')
    (hg : ∀ t t', agreeOutside ["FEATURE_SCORED"] t t' →
      significanceC t = significanceC t')
    (hqm : ∀ t t', agreeOutside ["COMPLEX_QM", "EDGE_DIRECTIONAL", "EDGE", "EDGE_LEVEL",
      "NODE", "NODE_LEVEL"] t t' → qmC t = qmC t')
    (hqt : ∀ t t', agreeOutside ["EDGE_DIRECTIONAL", "EDGE", "EDGE_LEVEL", "NODE",
      "NODE_LEVEL"] t t' → qtC t = qtC t') :
    runScore monomerC scoringC significanceC
      (runScore monomerC scoringC significanceC s).store =
      runScore monomerC scoringC significanceC s ∧
    runQuantify qmC qtC (runQuantify qmC qtC s').store = runQuantify qmC qtC s' :=
  ⟨runScore_idem monomerC scoringC significanceC s hm hf hg,
   runQuantify_idem qmC qtC s' hqm hqt⟩

/-- Witness for C8 at concrete stage computations (constant, hence reading
no tables at all) on the empty store. -/
theorem rerun_stage_bit_identical_witness :
    runScore (fun _ => .ok [["m"]]) (fun _ => .ok [["f"]]) (fun _ => .ok [["g"]])
      (runScore (fun _ => .ok [["m"]]) (fun _ => .ok [["f"]]) (fun _ => .ok [["g"]])
        Store.empty).store =
      runScore (fun _ => .ok [["m"]]) (fun _ => .ok [["f"]]) (fun _ => .ok [["g"]])
        Store.empty ∧
    runQuantify (fun _ => .ok [["q"]]) (fun _ => .ok ⟨[], [], [], [], []⟩)
      (runQuantify (fun _ => .ok [["q"]]) (fun _ => .ok ⟨[], [], [], [], []⟩)
        Store.empty).store =
      runQuantify (fun _ => .ok [["q"]]) (fun _ => .ok ⟨[], [], [], [], []⟩) Store.empty :=
  rerun_stage_bit_identical (fun _ => .ok [["m"]]) (fun _ => .ok [["f"]])
    (fun _ => .ok [["g"]]) (fun _ => .ok [["q"]]) (fun _ => .ok ⟨[], [], [], [], []⟩)
    Store.empty Store.empty (fun _ _ _ => rfl) (fun _ _ _ => rfl) (fun _ _ _ => rfl)
    (fun _ _ _ => rfl) (fun _ _ _ => rfl)

end Secat
